import Mathlib

/-!
Shallow embedding of the EventPlanner backend booking core
(event.service, room.service, event_service.service, eventController,
utils/validation) and proofs about its availability checking, cost
calculation, booking orchestration, pagination and deletion logic.

Conventions of the embedding:
* instants are modelled as integer milliseconds (`Millis`); money and
  durations as `Rat` (JS numbers, exact for the values involved);
* a JS value that may be `null`/`undefined` is an `Option`; absent and
  explicitly-null inputs are identified (no claim distinguishes them);
* the Prisma database is a record of lists with explicit id counters;
  a Prisma transaction is a function returning `Except`: a thrown
  exception is `.error` and rolls the state back to the pre-transaction
  snapshot, a normal return commits the state built so far;
* status enums are the literal strings the source compares against.
-/

namespace EventPlanner

attribute [local semireducible] Rat.add Rat.mul Rat.inv Rat.sub

abbrev Millis := Int

/-- Room row, fields used by the booking core (room.service.js). -/
structure Room where
  room_id : Nat
  room_name : String
  is_active : Bool
  status : String
  base_price : Option Rat
  hourly_rate : Option Rat
deriving DecidableEq, Repr

/-- Account row (only the id is consulted by the event flow). -/
structure Account where
  account_id : Nat
deriving DecidableEq, Repr

/-- EventType row. -/
structure EventType where
  type_id : Nat
  is_active : Bool
deriving DecidableEq, Repr

/-- Service row. -/
structure Service where
  service_id : Nat
  is_active : Bool
deriving DecidableEq, Repr

/-- Variation row. -/
structure Variation where
  variation_id : Nat
  service_id : Nat
  variation_name : String
  base_price : Option Rat
  is_active : Bool
deriving DecidableEq, Repr

/-- Event row. -/
structure Event where
  event_id : Nat
  event_name : String
  description : Option String
  event_date : Millis
  start_time : Option Millis
  end_time : Option Millis
  estimated_cost : Rat
  final_cost : Option Rat
  room_service_fee : Option Rat
  status : String
  account_id : Option Nat
  room_id : Option Nat
  event_type_id : Option Nat
  date_create : Millis
deriving DecidableEq, Repr

/-- EventService row (a booking line item). -/
structure EventService where
  event_service_id : Nat
  event_id : Nat
  service_id : Nat
  variation_id : Option Nat
  quantity : Nat
  custom_price : Option Rat
  notes : Option String
  status : String
  scheduled_time : Option Millis
  duration_hours : Option Rat
deriving DecidableEq, Repr

/-- Invoice row (1:1 with an Event). -/
structure Invoice where
  invoice_id : Nat
  invoice_number : String
  total_amount : Rat
  event_id : Nat
  account_id : Option Nat
  status : String
  issue_date : Millis
  due_date : Millis
deriving DecidableEq, Repr

/-- InvoiceDetail row. -/
structure InvoiceDetail where
  invoice_detail_id : Nat
  invoice_id : Nat
  item_name : String
  quantity : Nat
  unit_price : Option Rat
  subtotal : Option Rat
  item_type : String
  service_id : Option Nat
  variation_id : Option Nat
deriving DecidableEq, Repr

/-- Payment row (only its link to an event matters for deleteEvent). -/
structure Payment where
  payment_id : Nat
  event_id : Nat
deriving DecidableEq, Repr

/-- Review row (only its link to an event matters for deleteEvent). -/
structure Review where
  review_id : Nat
  event_id : Nat
deriving DecidableEq, Repr

/-- The relational store, with autoincrement counters made explicit. -/
structure DB where
  accounts : List Account
  rooms : List Room
  eventTypes : List EventType
  services : List Service
  variations : List Variation
  events : List Event
  eventServices : List EventService
  invoices : List Invoice
  invoiceDetails : List InvoiceDetail
  payments : List Payment
  reviews : List Review
  nextEventId : Nat
  nextEventServiceId : Nat
  nextInvoiceId : Nat
  nextInvoiceDetailId : Nat
deriving DecidableEq, Repr

/-- The uniform result object produced by createValidationResult
(utils/validation.js): isValid flag, error list, optional data. -/
structure SvcResult (α : Type) where
  isValid : Bool
  errors : List String
  data : Option α
deriving DecidableEq, Repr

/-- createValidationResult(false, errors). -/
def failRes {α : Type} (errors : List String) : SvcResult α :=
  { isValid := false, errors := errors, data := none }

/-- createValidationResult(true, [], data). -/
def okRes {α : Type} (data : α) : SvcResult α :=
  { isValid := true, errors := [], data := some data }

/-- Truthiness of an optional JS number: null/undefined and 0 are falsy. -/
def truthyNat (x : Option Nat) : Bool :=
  match x with
  | some n => n != 0
  | none => false

/-- Truthiness of an optional JS numeric amount: null/undefined and 0 are falsy. -/
def truthyRat (x : Option Rat) : Bool :=
  match x with
  | some q => q != 0
  | none => false

/-- Truthiness of an optional date/time input: a Date object or a nonempty
date string is always truthy, so only null/undefined are falsy. -/
def truthyTime (x : Option Millis) : Bool := x.isSome

/-- JS `a || b` on an optional number against a default (0 falls through). -/
def jsOrRat (a : Option Rat) (b : Rat) : Rat :=
  match a with
  | some x => if x = 0 then b else x
  | none => b

/-- JS `new Date(t).setHours(0,0,0,0)`: truncation to the start of the day
(modelled in UTC). -/
def startOfDay (t : Millis) : Millis := t - t.emod 86400000

/-- Lookup helpers mirroring prisma findUnique / findFirst by key. -/
def DB.findAccount (db : DB) (id : Nat) : Option Account :=
  db.accounts.find? (fun a => a.account_id == id)

/-- findUnique over rooms. -/
def DB.findRoom (db : DB) (id : Nat) : Option Room :=
  db.rooms.find? (fun r => r.room_id == id)

/-- findUnique over event types. -/
def DB.findEventType (db : DB) (id : Nat) : Option EventType :=
  db.eventTypes.find? (fun t => t.type_id == id)

/-- findUnique over services. -/
def DB.findService (db : DB) (id : Nat) : Option Service :=
  db.services.find? (fun s => s.service_id == id)

/-- findUnique over variations. -/
def DB.findVariation (db : DB) (id : Nat) : Option Variation :=
  db.variations.find? (fun v => v.variation_id == id)

/-- findUnique over events. -/
def DB.findEvent (db : DB) (id : Nat) : Option Event :=
  db.events.find? (fun e => e.event_id == id)

/-- findFirst invoice for an event (the relation is 1:1). -/
def DB.findInvoiceByEvent (db : DB) (eventId : Nat) : Option Invoice :=
  db.invoices.find? (fun i => i.event_id == eventId)

/-- The conflict predicate of the prisma query inside checkRoomAvailability
(room.service.js 282-297): same room, status CONFIRMED or IN_PROGRESS, and
stored interval with start_time lt requested end and end_time gt requested
start.  Rows whose start_time or end_time is null do not match the lt/gt
filters. -/
def roomConflict (room_id : Nat) (reqStart reqEnd : Millis) (e : Event) : Bool :=
  e.room_id == some room_id &&
  (e.status == "CONFIRMED" || e.status == "IN_PROGRESS") &&
  (match e.start_time, e.end_time with
   | some s, some en => decide (s < reqEnd) && decide (en > reqStart)
   | _, _ => false)

/-- Data payload of checkRoomAvailability. -/
structure RoomAvailData where
  isAvailable : Bool
  reason : String
deriving DecidableEq, Repr

/-- checkRoomAvailability (room.service.js 265-307).  The function takes
exactly four parameters; the fifth (exclude id) and sixth (transaction)
arguments some callers pass are silently discarded by JS, so they do not
appear here.  The duration_hours parameter is accepted but never used by
the body. -/
def checkRoomAvailability (db : DB) (room_id : Nat)
    (start_time end_time : Option Millis) (duration_hours : Option Rat) :
    SvcResult RoomAvailData :=
  let _ := duration_hours
  match start_time, end_time with
  | some s, some en =>
      let conflicting := db.events.find? (roomConflict room_id s en)
      okRes { isAvailable := conflicting.isNone, reason := "Conflict" }
  | _, _ => failRes ["start_time and end_time are required"]

/-- Data payload of checkVariationAvailability. -/
structure VariationAvailData where
  variation_id : Nat
deriving DecidableEq, Repr

/-- checkVariationAvailability (event_service.service 630-700).  After the
input-presence check and the existence/active check on the variation the
function returns success unconditionally: the entire conflict query and the
overlap filter are commented out in the source. -/
def checkVariationAvailability (db : DB) (variation_id : Option Nat)
    (scheduled_time : Option Millis) (duration_hours : Option Rat) :
    SvcResult VariationAvailData :=
  if !(truthyNat variation_id) || !(truthyTime scheduled_time)
      || !(truthyRat duration_hours) then
    failRes ["Variation ID, scheduled time, and duration are required"]
  else
    match db.findVariation (variation_id.getD 0) with
    | none => failRes ["Variation not found or inactive"]
    | some v =>
        if !v.is_active then failRes ["Variation not found or inactive"]
        else okRes { variation_id := v.variation_id }

/-- The half-open overlap rule of the specification for EventService
bookings on a variation: an existing CONFIRMED row on the same variation
with window scheduled_time to scheduled_time + duration_hours intersecting
the requested window.  This definition follows the SPEC wording (the rule
the source has commented out); it exists to compare the code against the
claim. -/
def specVariationConflict (db : DB) (variation_id : Nat)
    (reqStart : Millis) (durationHours : Rat) : Bool :=
  let reqEnd : Rat := (reqStart : Rat) + durationHours * 3600000
  db.eventServices.any (fun es =>
    es.variation_id == some variation_id &&
    es.status == "CONFIRMED" &&
    (match es.scheduled_time, es.duration_hours with
     | some s, some dh =>
         decide ((s : Rat) < reqEnd) &&
         decide ((s : Rat) + dh * 3600000 > (reqStart : Rat))
     | _, _ => false))

/-- Replace the status of every event carrying the given id (the prisma
update targets the primary key; the list map realises it). -/
def setEventStatus (id : Nat) (st : String) (e : Event) : Event :=
  if e.event_id == id then { e with status := st } else e

/-- toggleEventStatus (event.service 1001-1052): PENDING becomes CONFIRMED
and every other status becomes PENDING.  The approval e-mail is outbound
I/O with no database effect and is not modelled. -/
def toggleEventStatus (db : DB) (eventId : Nat) : SvcResult Event × DB :=
  match db.findEvent eventId with
  | none => (failRes ["Event not found"], db)
  | some event =>
      let newStatus := if event.status == "PENDING" then "CONFIRMED" else "PENDING"
      let db2 := { db with events := db.events.map (setEventStatus eventId newStatus) }
      (okRes { event with status := newStatus }, db2)

/-- String.trim of the runtime, implemented over the character list so
that it evaluates by structural reduction. -/
def strTrim (s : String) : String :=
  ⟨(((s.data.dropWhile Char.isWhitespace).reverse.dropWhile
    Char.isWhitespace).reverse)⟩

/-- String.toLowerCase of the runtime, implemented over the character
list. -/
def strToLower (s : String) : String := ⟨s.data.map Char.toLower⟩

/-- The event status whitelist of event.service.js. -/
def EVENT_STATUSES : List String :=
  ["PENDING", "ACCEPTED", "CONFIRMED", "IN_PROGRESS", "COMPLETED",
   "CANCELLED", "RESCHEDULED"]

/-- Input payload of createEvent / updateEvent (req.body fields the service
destructures).  Absent and explicitly-null fields are identified. -/
structure EventData where
  event_name : Option String
  description : Option String
  start_time : Option Millis
  end_time : Option Millis
  event_date : Option Millis
  estimated_cost : Option Rat
  final_cost : Option Rat
  room_service_fee : Option Rat
  account_id : Option Nat
  room_id : Option Nat
  event_type_id : Option Nat
  status : Option String
  service_id : Option Nat
  variation_id : Option Nat
deriving DecidableEq, Repr

/-- An EventData with every field absent (the destructuring defaults then
apply). -/
def emptyEventData : EventData :=
  { event_name := none, description := none, start_time := none,
    end_time := none, event_date := none, estimated_cost := none,
    final_cost := none, room_service_fee := none, account_id := none,
    room_id := none, event_type_id := none, status := none,
    service_id := none, variation_id := none }

/-- validateEventData (event.service 75-170).  Modelled pieces: the required
name with bounds 1-255 after trimming (VARIATION_NAME config), the
start/end order check of validateDateRange, the non-negativity of the three
cost fields (a falsy 0 skips its check, but 0 satisfies min 0 anyway), the
status whitelist.  The id-shape checks cannot fail for ids represented as
Nat and contribute no errors here. -/
def validateEventData (d : EventData) : List String :=
  (match d.event_name with
   | none => ["Event name is required"]
   | some s =>
       if s = "" then ["Event name is required"]
       else
         (if (strTrim s).length < 1 then
            ["Event name must be between 1 and 255 characters"] else []) ++
         (if (strTrim s).length > 255 then
            ["Event name must be between 1 and 255 characters"] else []))
  ++ (match d.start_time, d.end_time with
      | some s, some e =>
          if s > e then ["Start time cannot be after end time"] else []
      | _, _ => [])
  ++ (match d.description with
      | some s =>
          if s != "" && (strTrim s).length > 5000 then
            ["Description must be between 0 and 5000 characters"] else []
      | none => [])
  ++ (match d.estimated_cost with
      | some c => if c != 0 && c < 0 then
          ["Estimated cost must be between 0 and unlimited"] else []
      | none => [])
  ++ (match d.final_cost with
      | some c => if c != 0 && c < 0 then
          ["Final cost must be between 0 and unlimited"] else []
      | none => [])
  ++ (match d.room_service_fee with
      | some c => if c != 0 && c < 0 then
          ["Room service fee must be between 0 and unlimited"] else []
      | none => [])
  ++ (match d.status with
      | some st =>
          if st != "" && !(EVENT_STATUSES.contains st) then
            ["Invalid event status"] else []
      | none => [])

/-- Result shape of validateNumber specialised to integer inputs
(utils/validation.js 267-314). -/
structure NumResult where
  isValid : Bool
  errors : List String
  sanitizedValue : Int
deriving DecidableEq, Repr

/-- validateNumber for an always-present integer value with optional
min/max bounds (the integer flag always passes for Int). -/
def validateNumberInt (value : Int) (fieldName : String)
    (minC maxC : Option Int) : NumResult :=
  let minErrs :=
    match minC with
    | some m => if value < m then
        [fieldName ++ " must be between min and max"] else []
    | none => []
  let maxErrs :=
    match maxC with
    | some m => if value > m then
        [fieldName ++ " must be between min and max"] else []
    | none => []
  { isValid := (minErrs ++ maxErrs).isEmpty,
    errors := minErrs ++ maxErrs,
    sanitizedValue := value }

/-- Result of validatePagination. -/
structure PagResult where
  page : Int
  limit : Int
  errors : List String
deriving DecidableEq, Repr

/-- validatePagination (utils/validation.js 449-470): page has min 1, limit
is bounded to 1..100; the sanitized value falls back to the defaults 1 and
20 through JS disjunction, where a 0 input is falsy. -/
def validatePagination (page limit : Int) : PagResult :=
  let pv := validateNumberInt page "Page" (some 1) none
  let lv := validateNumberInt limit "Limit" (some 1) (some 100)
  { page := if pv.sanitizedValue = 0 then 1 else pv.sanitizedValue,
    limit := if lv.sanitizedValue = 0 then 20 else lv.sanitizedValue,
    errors := pv.errors ++ lv.errors }

/-- Query filters of getAllEvents (event.service 707-725).  The include
flags only shape eager-loaded sub-objects of each returned row and do not
change which rows or how many are returned, so they are not modelled. -/
structure EventFilters where
  account_id : Option Nat
  room_id : Option Nat
  event_type_id : Option Nat
  status : Option String
  dateMin : Option Millis
  dateMax : Option Millis
  search : Option String
  page : Option Int
  limit : Option Int
  sortBy : Option String
  sortOrder : Option String
deriving DecidableEq, Repr

/-- An EventFilters with every field absent. -/
def emptyFilters : EventFilters :=
  { account_id := none, room_id := none, event_type_id := none,
    status := none, dateMin := none, dateMax := none, search := none,
    page := none, limit := none, sortBy := none, sortOrder := none }

/-- Whether needle occurs as a contiguous run inside hay. -/
def charsContain (needle : List Char) : List Char → Bool
  | [] => needle.isEmpty
  | c :: t => needle.isPrefixOf (c :: t) || charsContain needle t

/-- Case-insensitive substring containment (prisma contains with mode
insensitive). -/
def containsInsensitive (hay needle : String) : Bool :=
  charsContain (strToLower needle).data (strToLower hay).data

/-- The where clause built by getAllEvents (event.service 738-758) as a row
predicate.  Range filters on start_time do not match rows whose start_time
is null; the search term, when nonempty after trimming, matches the name or
the description case-insensitively. -/
def eventMatchesWhere (f : EventFilters) (e : Event) : Bool :=
  (match f.account_id with
   | some a => e.account_id == some a
   | none => true) &&
  (match f.room_id with
   | some r => e.room_id == some r
   | none => true) &&
  (match f.event_type_id with
   | some t => e.event_type_id == some t
   | none => true) &&
  (match f.status with
   | some st => e.status == st
   | none => true) &&
  (match f.dateMin with
   | some dmin => (match e.start_time with
       | some s => decide (s ≥ dmin)
       | none => false)
   | none => true) &&
  (match f.dateMax with
   | some dmax => (match e.start_time with
       | some s => decide (s ≤ dmax)
       | none => false)
   | none => true) &&
  (match f.search with
   | some q =>
       if strTrim q = "" then true
       else containsInsensitive e.event_name (strTrim q) ||
         (match e.description with
          | some ds => containsInsensitive ds (strTrim q)
          | none => false)
   | none => true)

/-- buildSortOrder (event.service 172-191): whitelist of sortable fields
with fallback to date_create, and sort order normalised to asc/desc with
fallback to asc. -/
def buildSortOrder (sortBy sortOrder : String) : String × String :=
  let validSortFields := ["event_name", "start_time", "end_time",
    "estimated_cost", "final_cost", "room_service_fee", "date_create",
    "status"]
  let field := if validSortFields.contains sortBy then sortBy else "date_create"
  let order := if strToLower sortOrder = "asc" || strToLower sortOrder = "desc"
    then strToLower sortOrder else "asc"
  (field, order)

/-- Ascending comparison on optional instants (null rows ordered first). -/
def leOptMillis (a b : Option Millis) : Bool :=
  match a, b with
  | none, _ => true
  | some _, none => false
  | some x, some y => decide (x ≤ y)

/-- Ascending comparison on optional amounts (null rows ordered first). -/
def leOptRat (a b : Option Rat) : Bool :=
  match a, b with
  | none, _ => true
  | some _, none => false
  | some x, some y => decide (x ≤ y)

/-- Row comparison for one sortable event field, ascending. -/
def eventFieldLe (field : String) (a b : Event) : Bool :=
  if field = "event_name" then a.event_name ≤ b.event_name
  else if field = "start_time" then leOptMillis a.start_time b.start_time
  else if field = "end_time" then leOptMillis a.end_time b.end_time
  else if field = "estimated_cost" then decide (a.estimated_cost ≤ b.estimated_cost)
  else if field = "final_cost" then leOptRat a.final_cost b.final_cost
  else if field = "room_service_fee" then leOptRat a.room_service_fee b.room_service_fee
  else if field = "status" then a.status ≤ b.status
  else decide (a.date_create ≤ b.date_create)

/-- Stable insertion into a sorted list (helper for the orderBy model). -/
def insertLe {α : Type} (le : α → α → Bool) (x : α) : List α → List α
  | [] => [x]
  | y :: ys => if le x y then x :: y :: ys else y :: insertLe le x ys

/-- Stable sort by a boolean comparison (the orderBy of the database). -/
def sortByLe {α : Type} (le : α → α → Bool) : List α → List α
  | [] => []
  | x :: xs => insertLe le x (sortByLe le xs)

/-- Apply the orderBy produced by buildSortOrder. -/
def applyOrderBy (events : List Event) (field order : String) : List Event :=
  let sorted := sortByLe (eventFieldLe field) events
  if order = "desc" then sorted.reverse else sorted

/-- Pagination metadata of getAllEvents. -/
structure PaginationMeta where
  page : Int
  limit : Int
  totalCount : Nat
  totalPages : Nat
  hasNextPage : Bool
  hasPreviousPage : Bool
deriving DecidableEq, Repr

/-- Data payload of getAllEvents. -/
structure EventsPage where
  events : List Event
  pagination : PaginationMeta
deriving DecidableEq, Repr

/-- Math.ceil(t / l) on naturals. -/
def ceilDivNat (t l : Nat) : Nat := (t + l - 1) / l

/-- getAllEvents (event.service 707-839): validate pagination, filter,
sort, page with skip/take, and report counts and next/previous flags.
The per-row eventServicesCount decoration does not change the row list
length and is not modelled. -/
def getAllEvents (db : DB) (f : EventFilters) : SvcResult EventsPage :=
  let page := f.page.getD 1
  let limit := f.limit.getD 20
  let pv := validatePagination page limit
  if pv.errors ≠ [] then failRes pv.errors
  else
    let filtered := db.events.filter (eventMatchesWhere f)
    let (field, order) := buildSortOrder (f.sortBy.getD "date_create")
      (f.sortOrder.getD "asc")
    let sorted := applyOrderBy filtered field order
    let skip := ((pv.page - 1) * pv.limit).toNat
    let pageRows := (sorted.drop skip).take pv.limit.toNat
    let totalCount := filtered.length
    let totalPages := ceilDivNat totalCount pv.limit.toNat
    okRes {
      events := pageRows,
      pagination := {
        page := pv.page,
        limit := pv.limit,
        totalCount := totalCount,
        totalPages := totalPages,
        hasNextPage := decide (pv.page < (totalPages : Int)),
        hasPreviousPage := decide (pv.page > 1) } }

/-- Data payload returned by innerCreateEvent: the created row spread with
the derived duration_hours and scheduled_time. -/
structure CreatedEvent where
  event : Event
  duration_hours : Option Rat
  scheduled_time : Option Millis
deriving DecidableEq, Repr

/-- The post-validation tail of innerCreateEvent: reference checks on
account, room and event type, the room availability check, the room-only
cost, and the Event/Invoice/InvoiceDetail inserts. -/
def innerCreateEventChecked (db : DB) (now : Millis) (d : EventData)
    (rid : Nat) (scheduledTime : Option Millis)
    (durationHours : Option Rat) : SvcResult CreatedEvent × DB :=
  if truthyNat d.account_id &&
      (db.findAccount (d.account_id.getD 0)).isNone then
    (failRes ["Account not found"], db)
  else
    match db.findRoom rid with
    | none => (failRes ["Room not found, inactive, or unavailable"], db)
    | some room =>
      if !room.is_active || room.status != "AVAILABLE" then
        (failRes ["Room not found, inactive, or unavailable"], db)
      else
        let avail :=
          if truthyTime d.start_time && truthyRat durationHours then
            some (checkRoomAvailability db rid d.start_time d.end_time
              durationHours)
          else none
        let availBad :=
          match avail with
          | some a => !a.isValid ||
              !((a.data.map RoomAvailData.isAvailable).getD false)
          | none => false
        if availBad then
          (failRes [match avail.bind SvcResult.data with
            | some dd => if dd.reason = "" then "Room is not available"
                else dd.reason
            | none => "Room is not available"], db)
        else if truthyNat d.event_type_id &&
            !((db.findEventType (d.event_type_id.getD 0)).any
              (fun t => t.is_active)) then
          (failRes ["Event type not found or inactive"], db)
        else
          let baseCost := jsOrRat d.estimated_cost 0 + room.base_price.getD 0
          let calculated :=
            if truthyRat durationHours && truthyRat room.hourly_rate then
              baseCost + room.hourly_rate.getD 0 * durationHours.getD 0
            else baseCost
          let newEvent : Event := {
            event_id := db.nextEventId,
            event_name := strTrim (d.event_name.getD ""),
            description := d.description.bind (fun s =>
              if strTrim s = "" then none else some (strTrim s)),
            event_date := d.event_date.getD
              (startOfDay (d.start_time.getD 0)),
            start_time := scheduledTime,
            end_time := d.end_time,
            estimated_cost := calculated,
            final_cost := d.final_cost.bind (fun c =>
              if c = 0 then none else some c),
            room_service_fee := d.room_service_fee.bind (fun c =>
              if c = 0 then none else some c),
            status := d.status.getD "PENDING",
            account_id := d.account_id.bind (fun a =>
              if a = 0 then none else some a),
            room_id := some rid,
            event_type_id := d.event_type_id.bind (fun t =>
              if t = 0 then none else some t),
            date_create := now }
          let db1 := { db with
            events := db.events ++ [newEvent],
            nextEventId := db.nextEventId + 1 }
          let db2 :=
            if calculated > 0 then
              let invoice : Invoice := {
                invoice_id := db1.nextInvoiceId,
                invoice_number := "INV-" ++ toString now,
                total_amount := calculated,
                event_id := newEvent.event_id,
                account_id := newEvent.account_id,
                status := "PENDING",
                issue_date := now,
                due_date := now + 604800000 }
              let detail : InvoiceDetail := {
                invoice_detail_id := db1.nextInvoiceDetailId,
                invoice_id := invoice.invoice_id,
                item_name := room.room_name,
                quantity := 1,
                unit_price := room.base_price,
                subtotal := room.base_price,
                item_type := "ROOM",
                service_id := none,
                variation_id := none }
              { db1 with
                invoices := db1.invoices ++ [invoice],
                invoiceDetails := db1.invoiceDetails ++ [detail],
                nextInvoiceId := db1.nextInvoiceId + 1,
                nextInvoiceDetailId := db1.nextInvoiceDetailId + 1 }
            else db1
          (okRes { event := newEvent,
                   duration_hours := durationHours,
                   scheduled_time := scheduledTime }, db2)

/-- innerCreateEvent (event.service 210-367): validation, required room,
derived duration with positivity gate, account/room/event-type reference
checks, room availability, room-only cost, then the Event insert and, when
the cost is positive, the Invoice and its ROOM InvoiceDetail.  Every
failure path returns before any write. -/
def innerCreateEvent (db : DB) (now : Millis) (d : EventData) :
    SvcResult CreatedEvent × DB :=
  let errs := validateEventData d
  if errs ≠ [] then (failRes errs, db)
  else if !(truthyNat d.room_id) then (failRes ["Room ID is required"], db)
  else
    let rid := d.room_id.getD 0
    let scheduledTime := d.start_time
    match d.start_time, d.end_time with
    | some s, some e =>
        let dh : Rat := ((e - s : Int) : Rat) / 3600000
        if dh ≤ 0 then (failRes ["End time must be after start time"], db)
        else innerCreateEventChecked db now d rid scheduledTime (some dh)
    | _, _ => innerCreateEventChecked db now d rid scheduledTime none

/-- createEvent (event.service 194-208): runs innerCreateEvent inside a
transaction.  The body performs its writes only on the success path and
throws nothing, so the wrapper adds no behaviour to the pure model. -/
def createEvent (db : DB) (now : Millis) (d : EventData) :
    SvcResult CreatedEvent × DB :=
  innerCreateEvent db now d

/-- Outcome of a controller endpoint: an HTTP 400 with the error list, an
HTTP 500 from a caught exception, or the HTTP 201 payload. -/
inductive ControllerResult
  | badRequest (errors : List String)
  | serverError
  | created (event : Event) (eventServicesCount : Nat)
deriving DecidableEq, Repr

/-- The loop body of the event-services transaction in createEventController
(eventController.js 84-163), processed over the service_variants list:
validate the service and variation, re-check variation availability, insert
the EventService row and the SERVICE InvoiceDetail row (throwing if the
invoice of the event does not exist).  The accumulated count is
createdServicesCount. -/
def processServiceVariants (db : DB) (ce : CreatedEvent)
    (count : Nat) : List (Nat × Nat) → Except String (DB × Nat)
  | [] => .ok (db, count)
  | (service_id, variant_id) :: rest =>
    match db.findService service_id with
    | none => .error "Service is not valid or inactive"
    | some svc =>
      if !svc.is_active then .error "Service is not valid or inactive"
      else
        match db.findVariation variant_id with
        | none => .error "Variation is not valid or does not belong to service"
        | some variation =>
          if !variation.is_active || variation.service_id != service_id then
            .error "Variation is not valid or does not belong to service"
          else
            let availFailed :=
              if truthyTime ce.scheduled_time && truthyRat ce.duration_hours
              then
                !(checkVariationAvailability db (some variant_id)
                  ce.scheduled_time ce.duration_hours).isValid
              else false
            if availFailed then .error "Variation is not available"
            else
              let es : EventService := {
                event_service_id := db.nextEventServiceId,
                event_id := ce.event.event_id,
                service_id := service_id,
                variation_id := some variant_id,
                quantity := 1,
                custom_price := none,
                notes := none,
                status := "CONFIRMED",
                scheduled_time := ce.scheduled_time,
                duration_hours := ce.duration_hours }
              let dbA := { db with
                eventServices := db.eventServices ++ [es],
                nextEventServiceId := db.nextEventServiceId + 1 }
              match dbA.findInvoiceByEvent ce.event.event_id with
              | none => .error "TypeError: cannot read invoice_id of null"
              | some inv =>
                let detail : InvoiceDetail := {
                  invoice_detail_id := dbA.nextInvoiceDetailId,
                  invoice_id := inv.invoice_id,
                  item_name := variation.variation_name,
                  quantity := 1,
                  unit_price := some (variation.base_price.getD 0),
                  subtotal := some (variation.base_price.getD 0),
                  item_type := "SERVICE",
                  service_id := some service_id,
                  variation_id := some variant_id }
                let dbB := { dbA with
                  invoiceDetails := dbA.invoiceDetails ++ [detail],
                  nextInvoiceDetailId := dbA.nextInvoiceDetailId + 1 }
                processServiceVariants dbB ce (count + 1) rest

/-- The aggregate of eventController.js 167-173: sum of subtotal over
SERVICE-type invoice details whose invoice belongs to the event (a null
subtotal is ignored by the database sum). -/
def sumServiceSubtotals (db : DB) (eventId : Nat) : Rat :=
  (db.invoiceDetails.filter (fun dt =>
    dt.item_type == "SERVICE" &&
    (db.invoices.find? (fun i => i.invoice_id == dt.invoice_id)).any
      (fun i => i.event_id == eventId))).foldl
    (fun acc dt => acc + dt.subtotal.getD 0) 0

/-- createEventController (eventController.js 64-195).  createEvent runs
and commits in its own transaction; the event services, their invoice
details and the estimated-cost update run in a second, separate
transaction.  A throw inside the second transaction rolls back only that
transaction and is answered with HTTP 500; the event committed by the
first transaction remains. -/
def createEventController (db : DB) (now : Millis) (d : EventData)
    (service_variants : List (Nat × Nat)) : ControllerResult × DB :=
  let (result, db1) := createEvent db now d
  if !result.isValid then (.badRequest result.errors, db1)
  else
    match result.data with
    | none => (.serverError, db1)
    | some ce =>
      if service_variants.isEmpty then (.created ce.event 0, db1)
      else
        match processServiceVariants db1 ce 0 service_variants with
        | .error _ => (.serverError, db1)
        | .ok (db2, count) =>
          let db3 :=
            if count > 0 then
              { db2 with events := db2.events.map (fun e =>
                  if e.event_id == ce.event.event_id then
                    { e with estimated_cost := ce.event.estimated_cost +
                        sumServiceSubtotals db2 ce.event.event_id }
                  else e) }
            else db2
          (.created ce.event count, db3)

/-- Authenticated caller passed into updateEvent. -/
structure User where
  account_id : Nat
  role : String
deriving DecidableEq, Repr

/-- Data payload of updateEvent: the updated row and the count of its
event services. -/
structure UpdatedEventData where
  event : Event
  eventServicesCount : Nat
deriving DecidableEq, Repr

/-- The message selection availability.data.reason || default string. -/
def roomAvailMsg (dd : RoomAvailData) : String :=
  if dd.reason = "" then "Room is not available" else dd.reason

/-- The availability step of updateEvent (event.service 475-489 and
505-519).  Both call sites pass null for the end-time parameter of
checkRoomAvailability (their fifth and sixth arguments are dropped by the
four-parameter signature), so the checker reports invalid with null data;
reading data.reason on the failure branch then throws a TypeError inside
the transaction.  A .error is that throw, .ok (some errs) is an early
invalid return, .ok none means the check passed. -/
def updateAvailCheck (db : DB) (rid : Nat) (start : Option Millis)
    (dh : Option Rat) : Except String (Option (List String)) :=
  let avail := checkRoomAvailability db rid start none dh
  if !avail.isValid then
    .error "TypeError: cannot read reason of null"
  else
    match avail.data with
    | some dd => if !dd.isAvailable then .ok (some [roomAvailMsg dd])
        else .ok none
    | none => .error "TypeError: cannot read reason of null"

/-- Outcome of the room phase of updateEvent: an early invalid return or
the calculated cost to carry forward. -/
inductive RoomPhase
  | early (res : SvcResult UpdatedEventData)
  | cont (calculated : Rat)
deriving DecidableEq, Repr

/-- The room section of updateEvent (event.service 459-520): when a new,
different room is supplied, validate it, re-check availability and rebase
the cost on that room; otherwise, when a time changes and the event has a
room, validate the current room and re-check availability without touching
the cost. -/
def updateRoomPhase (db : DB) (d : EventData) (existing : Event)
    (durationHours : Option Rat) (calculated0 : Rat) :
    Except String RoomPhase :=
  if truthyNat d.room_id && existing.room_id != d.room_id then
    match db.findRoom (d.room_id.getD 0) with
    | none => .ok (.early (failRes ["Room not found, inactive, or unavailable"]))
    | some room =>
      if !room.is_active || room.status != "AVAILABLE" then
        .ok (.early (failRes ["Room not found, inactive, or unavailable"]))
      else
        let baseCost := room.base_price.getD 0
        let costA :=
          if truthyRat durationHours && truthyRat room.hourly_rate then
            baseCost + room.hourly_rate.getD 0 * durationHours.getD 0
          else baseCost
        if truthyTime d.start_time && truthyRat durationHours then
          match updateAvailCheck db (d.room_id.getD 0) d.start_time
              durationHours with
          | .error msg => .error msg
          | .ok (some errsA) => .ok (.early (failRes errsA))
          | .ok none => .ok (.cont costA)
        else .ok (.cont costA)
  else if (truthyTime d.start_time || truthyTime d.end_time) &&
      truthyNat existing.room_id then
    match db.findRoom (existing.room_id.getD 0) with
    | none => .ok (.early (failRes ["Current room is not available"]))
    | some room =>
      if !room.is_active || room.status != "AVAILABLE" then
        .ok (.early (failRes ["Current room is not available"]))
      else if truthyTime d.start_time && truthyRat durationHours then
        match updateAvailCheck db (existing.room_id.getD 0) d.start_time
            durationHours with
        | .error msg => .error msg
        | .ok (some errsB) => .ok (.early (failRes errsB))
        | .ok none => .ok (.cont calculated0)
      else .ok (.cont calculated0)
  else .ok (.cont calculated0)

/-- Outcome of the service/variation phase of updateEvent. -/
inductive ServicePhase
  | early (res : SvcResult UpdatedEventData)
  | cont (calculated : Rat) (db2 : DB)
deriving DecidableEq, Repr

/-- The service/variation section of updateEvent (event.service 535-590):
validate the pair, re-check variation availability, add the variation
price to the cost, and replace the event services of the event by a single
fresh CONFIRMED row.  The prisma select of this variation lookup
(event.service 546-549) omits base_price, so the later read
variation.base_price yields undefined and undefined-or-0 adds 0. -/
def updateServicePhase (db : DB) (eventId : Nat) (d : EventData)
    (scheduledTime : Option Millis) (durationHours : Option Rat)
    (calculated : Rat) : ServicePhase :=
  if truthyNat d.service_id && truthyNat d.variation_id then
    match db.findService (d.service_id.getD 0) with
    | none => .early (failRes ["Service not found or inactive"])
    | some svc =>
      if !svc.is_active then .early (failRes ["Service not found or inactive"])
      else
        match db.findVariation (d.variation_id.getD 0) with
        | none => .early (failRes
            ["Variation not found, inactive, or does not belong to the specified service"])
        | some v =>
          if !v.is_active || v.service_id != d.service_id.getD 0 then
            .early (failRes
              ["Variation not found, inactive, or does not belong to the specified service"])
          else
            let availFailed :=
              if truthyTime scheduledTime && truthyRat durationHours then
                let ac := checkVariationAvailability db d.variation_id
                  scheduledTime durationHours
                if !ac.isValid then some ac.errors else none
              else none
            match availFailed with
            | some acErrs => .early { isValid := false,
                                      errors := acErrs,
                                      data := none }
            | none =>
              let variationBasePrice : Rat := 0
              let calculated2 := calculated + variationBasePrice
              let newES : EventService := {
                event_service_id := db.nextEventServiceId,
                event_id := eventId,
                service_id := d.service_id.getD 0,
                variation_id := some (d.variation_id.getD 0),
                quantity := 1,
                custom_price := none,
                notes := none,
                status := "CONFIRMED",
                scheduled_time := scheduledTime,
                duration_hours := durationHours }
              let db2 := { db with
                eventServices :=
                  (db.eventServices.filter (fun es =>
                    !(es.event_id == eventId))) ++ [newES],
                nextEventServiceId := db.nextEventServiceId + 1 }
              .cont calculated2 db2
  else .cont calculated db

/-- The prisma event.update of updateEvent (event.service 592-640): a field
is written when the input carries it and kept otherwise; event_date and
estimated_cost are always written. -/
def applyEventUpdate (e : Event) (d : EventData)
    (scheduledTime : Option Millis) (calculated : Rat) : Event :=
  { e with
    event_name := match d.event_name with
      | some n => strTrim n
      | none => e.event_name,
    description := match d.description with
      | some s => if strTrim s = "" then none else some (strTrim s)
      | none => e.description,
    start_time := if d.start_time.isSome then scheduledTime else e.start_time,
    end_time := if d.end_time.isSome then d.end_time else e.end_time,
    event_date := match d.event_date with
      | some ed => ed
      | none => startOfDay (scheduledTime.getD 0),
    estimated_cost := calculated,
    final_cost := if d.final_cost.isSome then d.final_cost else e.final_cost,
    room_service_fee := if d.room_service_fee.isSome then d.room_service_fee
      else e.room_service_fee,
    status := d.status.getD e.status,
    account_id := match d.account_id with
      | some a => if a = 0 then none else some a
      | none => e.account_id,
    room_id := match d.room_id with
      | some r => if r = 0 then none else some r
      | none => e.room_id,
    event_type_id := match d.event_type_id with
      | some t => if t = 0 then none else some t
      | none => e.event_type_id }

/-- The invoice section of updateEvent (event.service 643-694): when the
calculated cost differs from the stored one and an invoice exists, set its
total to the calculated cost, delete its details, re-insert the ROOM detail
(throwing if the room lookup fails) and, when a service/variation pair was
supplied, a SERVICE detail priced from a fresh variation lookup that does
select base_price. -/
def updateInvoicePhase (db2 : DB) (eventId : Nat) (d : EventData)
    (existing : Event) (calculated : Rat) : Except String DB :=
  if calculated != existing.estimated_cost then
    match db2.findInvoiceByEvent eventId with
    | none => .ok db2
    | some inv =>
      let db3 := { db2 with
        invoices := db2.invoices.map (fun i =>
          if i.invoice_id == inv.invoice_id then
            { i with total_amount := calculated }
          else i),
        invoiceDetails := db2.invoiceDetails.filter (fun dt =>
          !(dt.invoice_id == inv.invoice_id)) }
      let afterRoom : Except String DB :=
        if truthyNat d.room_id || truthyNat existing.room_id then
          let rid := if truthyNat d.room_id then d.room_id.getD 0
            else existing.room_id.getD 0
          match db3.findRoom rid with
          | none => .error "TypeError: cannot read room_name of null"
          | some room =>
            .ok { db3 with
              invoiceDetails := db3.invoiceDetails ++ [{
                invoice_detail_id := db3.nextInvoiceDetailId,
                invoice_id := inv.invoice_id,
                item_name := room.room_name,
                quantity := 1,
                unit_price := room.base_price,
                subtotal := room.base_price,
                item_type := "ROOM",
                service_id := none,
                variation_id := none }],
              nextInvoiceDetailId := db3.nextInvoiceDetailId + 1 }
        else .ok db3
      match afterRoom with
      | .error msg => .error msg
      | .ok db4 =>
        if truthyNat d.service_id && truthyNat d.variation_id then
          let v? := db4.findVariation (d.variation_id.getD 0)
          let nm := (v?.map Variation.variation_name).getD ""
          .ok { db4 with
            invoiceDetails := db4.invoiceDetails ++ [{
              invoice_detail_id := db4.nextInvoiceDetailId,
              invoice_id := inv.invoice_id,
              item_name := if nm = "" then "Service" else nm,
              quantity := 1,
              unit_price := some (jsOrRat (v?.bind Variation.base_price) 0),
              subtotal := some (jsOrRat (v?.bind Variation.base_price) 0),
              item_type := "SERVICE",
              service_id := some (d.service_id.getD 0),
              variation_id := some (d.variation_id.getD 0) }],
            nextInvoiceDetailId := db4.nextInvoiceDetailId + 1 }
        else .ok db4
  else .ok db2

/-- The transaction body of updateEvent (event.service 446-700): account
check, room phase, event-type check, service phase, the event update, and
the invoice phase.  All early invalid returns happen before any write, so
they commit nothing; a .error is a thrown exception that rolls the whole
transaction back. -/
def updateEventTx (db : DB) (eventId : Nat) (d : EventData)
    (existing : Event) (scheduledTime : Option Millis)
    (durationHours : Option Rat) :
    Except String (SvcResult UpdatedEventData × DB) :=
  if truthyNat d.account_id &&
      (db.findAccount (d.account_id.getD 0)).isNone then
    .ok (failRes ["Account not found"], db)
  else
    let calculated0 := jsOrRat d.estimated_cost existing.estimated_cost
    match updateRoomPhase db d existing durationHours calculated0 with
    | .error msg => .error msg
    | .ok (.early res) => .ok (res, db)
    | .ok (.cont calculated1) =>
      if truthyNat d.event_type_id &&
          !((db.findEventType (d.event_type_id.getD 0)).any
            (fun t => t.is_active)) then
        .ok (failRes ["Event type not found or inactive"], db)
      else
        match updateServicePhase db eventId d scheduledTime durationHours
            calculated1 with
        | .early res => .ok (res, db)
        | .cont calculated2 db2 =>
          let db3 := { db2 with events := db2.events.map (fun e =>
              if e.event_id == eventId then
                applyEventUpdate e d scheduledTime calculated2
              else e) }
          match updateInvoicePhase db3 eventId d existing calculated2 with
          | .error msg => .error msg
          | .ok db4 =>
            let count := (db4.eventServices.filter (fun es =>
              es.event_id == eventId)).length
            .ok (okRes {
              event := applyEventUpdate existing d scheduledTime calculated2,
              eventServicesCount := count }, db4)

/-- The duration derivation of updateEvent (event.service 429-443): a
supplied start/end pair yields its duration with a positivity gate; with no
new pair the existing pair, when complete, supplies the duration unchecked;
otherwise the duration is null. -/
def computeUpdateDuration (d : EventData) (existing : Event) :
    Except (List String) (Option Rat) :=
  match d.start_time, d.end_time with
  | some s, some e =>
      let dh : Rat := ((e - s : Int) : Rat) / 3600000
      if dh ≤ 0 then .error ["End time must be after start time"]
      else .ok (some dh)
  | _, _ =>
      match existing.start_time, existing.end_time with
      | some s, some e => .ok (some (((e - s : Int) : Rat) / 3600000))
      | _, _ => .ok none

/-- updateEvent (event.service 370-704): lookup, customer ownership and
24-hour window, input validation, duration derivation, then the
transaction; a thrown transaction error is caught by handleError and
returned as an invalid result over the untouched database. -/
def updateEvent (db : DB) (now : Millis) (eventId : Nat) (d : EventData)
    (user : Option User) : SvcResult UpdatedEventData × DB :=
  match db.findEvent eventId with
  | none => (failRes ["Event not found"], db)
  | some existing =>
    let customerBlock : Option (List String) :=
      match user with
      | some u =>
        if u.role == "CUSTOMER" then
          if existing.account_id != some u.account_id then
            some ["You can only update your own events."]
          else if ((existing.start_time.getD 0 - now : Int) : Rat) / 3600000
              < 24 then
            some ["You can only update events at least 24 hours in advance."]
          else none
        else none
      | none => none
    match customerBlock with
    | some msgs => (failRes msgs, db)
    | none =>
      let errs := validateEventData d
      if errs ≠ [] then (failRes errs, db)
      else
        let scheduledTime := if d.start_time.isSome then d.start_time
          else existing.start_time
        match computeUpdateDuration d existing with
        | .error msgs => (failRes msgs, db)
        | .ok durationHours =>
          match updateEventTx db eventId d existing scheduledTime
              durationHours with
          | .error msg => (failRes [msg], db)
          | .ok (res, db2) => (res, db2)

/-- Data payload of deleteEvent: the dependency report of a blocked delete
or the summary of a performed delete. -/
inductive DeleteData
  | deps (eventServicesCount paymentsCount reviewsCount : Nat)
      (hasInvoice : Bool)
  | deleted (event_id deletedEventServices deletedPayments
      deletedReviews deletedInvoice : Nat)
deriving DecidableEq, Repr

/-- deleteEvent (event.service 920-998): gather dependent rows; with
dependencies and no force flag, reject with their counts and write
nothing; otherwise delete the dependents when forced and then the event. -/
def deleteEvent (db : DB) (eventId : Nat) (forceDelete : Bool) :
    SvcResult DeleteData × DB :=
  match db.findEvent eventId with
  | none => (failRes ["Event not found"], db)
  | some _ =>
    let esCount := (db.eventServices.filter (fun es =>
      es.event_id == eventId)).length
    let invoice := db.findInvoiceByEvent eventId
    let payCount := (db.payments.filter (fun p =>
      p.event_id == eventId)).length
    let revCount := (db.reviews.filter (fun r =>
      r.event_id == eventId)).length
    let hasDependencies := esCount > 0 || invoice.isSome || payCount > 0 ||
      revCount > 0
    if hasDependencies && !forceDelete then
      ({ isValid := false,
         errors := ["Cannot delete event. Use forceDelete to delete anyway."],
         data := some (.deps esCount payCount revCount invoice.isSome) }, db)
    else
      let db1 :=
        if forceDelete then
          { db with
            eventServices := db.eventServices.filter (fun es =>
              !(es.event_id == eventId)),
            payments := db.payments.filter (fun p =>
              !(p.event_id == eventId)),
            reviews := db.reviews.filter (fun r =>
              !(r.event_id == eventId)),
            invoiceDetails := match invoice with
              | some inv => db.invoiceDetails.filter (fun dt =>
                  !(dt.invoice_id == inv.invoice_id))
              | none => db.invoiceDetails,
            invoices := match invoice with
              | some inv => db.invoices.filter (fun i =>
                  !(i.invoice_id == inv.invoice_id))
              | none => db.invoices }
        else db
      let db2 := { db1 with events := db1.events.filter (fun e =>
        !(e.event_id == eventId)) }
      (okRes (.deleted eventId
        (if forceDelete then esCount else 0)
        (if forceDelete then payCount else 0)
        (if forceDelete then revCount else 0)
        (if forceDelete && invoice.isSome then 1 else 0)), db2)

/-- A database with no rows and fresh counters. -/
def emptyDB : DB :=
  { accounts := [], rooms := [], eventTypes := [], services := [],
    variations := [], events := [], eventServices := [], invoices := [],
    invoiceDetails := [], payments := [], reviews := [], nextEventId := 1,
    nextEventServiceId := 1, nextInvoiceId := 1, nextInvoiceDetailId := 1 }

/-- An available, active room priced 1,000,000 base and 200,000 per hour
(the room of spec scenario 1). -/
def roomStd : Room :=
  { room_id := 1, room_name := "Grand Hall", is_active := true,
    status := "AVAILABLE", base_price := some 1000000,
    hourly_rate := some 200000 }

/-- A CONFIRMED event occupying room 1 from 10:00 to 12:00 (epoch-relative
milliseconds). -/
def eventBooked : Event :=
  { event_id := 5, event_name := "Booked", description := none,
    event_date := 0, start_time := some 36000000,
    end_time := some 43200000, estimated_cost := 0, final_cost := none,
    room_service_fee := none, status := "CONFIRMED", account_id := none,
    room_id := some 1, event_type_id := none, date_create := 0 }

/-- Room 1 with the CONFIRMED 10:00-12:00 booking. -/
def dbRoomBooked : DB :=
  { emptyDB with
    rooms := [roomStd], events := [eventBooked] }

/-- An active variation of service 1 priced 500,000. -/
def variationV : Variation :=
  { variation_id := 1, service_id := 1, variation_name := "V",
    base_price := some 500000, is_active := true }

/-- An active service. -/
def serviceActive : Service := { service_id := 1, is_active := true }

/-- A CONFIRMED EventService occupying variation 1 from 0 for 2 hours. -/
def esBooked : EventService :=
  { event_service_id := 1, event_id := 9, service_id := 1,
    variation_id := some 1, quantity := 1, custom_price := none,
    notes := none, status := "CONFIRMED", scheduled_time := some 0,
    duration_hours := some 2 }

/-- Variation 1 active, with a CONFIRMED booking covering 0 to 2h. -/
def dbVariationBusy : DB :=
  { emptyDB with variations := [variationV], eventServices := [esBooked] }

/-- Room 1 cheap, service 1 INACTIVE (to make the event-services
transaction of the controller throw after createEvent committed). -/
def dbInactiveService : DB :=
  { emptyDB with
    rooms := [{ room_id := 1, room_name := "Hall", is_active := true,
                status := "AVAILABLE", base_price := some 100,
                hourly_rate := none }],
    services := [{ service_id := 1, is_active := false }] }

/-- A two-hour create request for room 1 named Party. -/
def dParty : EventData :=
  { emptyEventData with
    event_name := some "Party", start_time := some 0,
    end_time := some 7200000, room_id := some 1 }

/-- Room, service and variation of spec scenario 1. -/
def dbScenario1 : DB :=
  { emptyDB with
    rooms := [roomStd], services := [serviceActive],
    variations := [variationV] }

/-- The two-hour create request of spec scenario 1. -/
def dGala : EventData :=
  { emptyEventData with
    event_name := some "Gala", start_time := some 0,
    end_time := some 7200000, room_id := some 1 }

/-- An existing two-hour event on room 1 with stored cost 1,400,000. -/
def eventExisting : Event :=
  { event_id := 1, event_name := "Gala", description := none,
    event_date := 0, start_time := some 0, end_time := some 7200000,
    estimated_cost := 1400000, final_cost := none,
    room_service_fee := none, status := "PENDING", account_id := none,
    room_id := some 1, event_type_id := none, date_create := 0 }

/-- The scenario-1 master data plus the existing event. -/
def dbExisting : DB :=
  { emptyDB with
    rooms := [roomStd], services := [serviceActive],
    variations := [variationV], events := [eventExisting],
    nextEventId := 2 }

/-- An update request adding service 1 / variation 1 to an event. -/
def dAddService : EventData :=
  { emptyEventData with
    event_name := some "Gala", service_id := some 1,
    variation_id := some 1 }

/-- An update request moving the event to 0-1h (new start and end). -/
def dNewTimes : EventData :=
  { emptyEventData with
    event_name := some "Gala", start_time := some 0,
    end_time := some 3600000 }

/-- An update request re-submitting the unchanged 10:00-12:00 window. -/
def dSameWindow : EventData :=
  { emptyEventData with
    event_name := some "Booked",
    start_time := some 36000000, end_time := some 43200000 }

/-- A COMPLETED event. -/
def eventCompleted : Event :=
  { event_id := 1, event_name := "Done", description := none,
    event_date := 0, start_time := none, end_time := none,
    estimated_cost := 0, final_cost := none, room_service_fee := none,
    status := "COMPLETED", account_id := none, room_id := none,
    event_type_id := none, date_create := 0 }

/-- A database whose only event is COMPLETED. -/
def dbCompleted : DB := { emptyDB with events := [eventCompleted] }

/-- The same event PENDING. -/
def eventPendingEx : Event := { eventCompleted with status := "PENDING" }

/-- A database whose only event is PENDING. -/
def dbPending : DB := { emptyDB with events := [eventPendingEx] }

/-- A plain event for listing. -/
def eventListed : Event :=
  { event_id := 1, event_name := "E1", description := none,
    event_date := 0, start_time := none, end_time := none,
    estimated_cost := 0, final_cost := none, room_service_fee := none,
    status := "PENDING", account_id := none, room_id := none,
    event_type_id := none, date_create := 0 }

/-- A one-event database for the listing witness. -/
def dbListing : DB :=
  { emptyDB with
    events := [eventListed], nextEventId := 2 }

/-- Filters asking for page 1 with limit 20. -/
def fPage1 : EventFilters :=
  { emptyFilters with
    page := some 1, limit := some 20 }

/-- The page getAllEvents produces on dbListing with fPage1. -/
def pdListing : EventsPage :=
  { events := [eventListed],
    pagination := { page := 1, limit := 20, totalCount := 1,
                    totalPages := 1, hasNextPage := false,
                    hasPreviousPage := false } }

/-- A dependent EventService of event 1. -/
def esDep1 : EventService :=
  { event_service_id := 1, event_id := 1, service_id := 1,
    variation_id := none, quantity := 1, custom_price := none,
    notes := none, status := "CONFIRMED", scheduled_time := none,
    duration_hours := none }

/-- A second dependent EventService of event 1. -/
def esDep2 : EventService := { esDep1 with event_service_id := 2 }

/-- The invoice of event 1. -/
def invDep : Invoice :=
  { invoice_id := 1, invoice_number := "INV-1", total_amount := 0,
    event_id := 1, account_id := none, status := "PENDING",
    issue_date := 0, due_date := 0 }

/-- Event 1 with 2 event services and 1 invoice (spec scenario 4). -/
def dbWithDeps : DB :=
  { emptyDB with
    events := [eventListed],
    eventServices := [esDep1, esDep2], invoices := [invDep] }

/-- Discriminator for the created outcome of a controller call. -/
def ControllerResult.isCreated : ControllerResult → Bool
  | .created _ _ => true
  | _ => false

/-- The conflict predicate in propositional form. -/
theorem roomConflict_iff (rid : Nat) (s en : Millis) (e : Event) :
    roomConflict rid s en e = true ↔
      e.room_id = some rid ∧
      (e.status = "CONFIRMED" ∨ e.status = "IN_PROGRESS") ∧
      ∃ es ee, e.start_time = some es ∧ e.end_time = some ee ∧
        es < en ∧ ee > s := by
  unfold roomConflict
  cases hst : e.start_time <;> cases het : e.end_time <;>
    simp [hst, het, Bool.and_eq_true, Bool.or_eq_true, and_assoc]

/-- C7: room-booking conflict detection uses half-open intervals: an
existing CONFIRMED or IN_PROGRESS event on the same room conflicts with the
requested window exactly when existing.start lt requested.end and
existing.end gt requested.start; in particular a request starting exactly
at an existing booking's end (12:00-14:00 against 10:00-12:00) is reported
available. -/
theorem roomAvailability_halfopen (db : DB) (rid : Nat) (s en : Millis)
    (dh : Option Rat) :
    (((checkRoomAvailability db rid (some s) (some en) dh).data.map
        RoomAvailData.isAvailable = some true) ↔
      (∀ e ∈ db.events, e.room_id = some rid →
        (e.status = "CONFIRMED" ∨ e.status = "IN_PROGRESS") →
        ∀ es ee, e.start_time = some es → e.end_time = some ee →
          ¬(es < en ∧ ee > s))) ∧
    ((checkRoomAvailability dbRoomBooked 1 (some 43200000) (some 50400000)
        none).data.map RoomAvailData.isAvailable = some true) := by
  constructor
  · have hdata : (checkRoomAvailability db rid (some s) (some en) dh).data =
        some { isAvailable := (db.events.find? (roomConflict rid s en)).isNone,
               reason := "Conflict" } := rfl
    rw [hdata]
    simp only [Option.map_some', Option.some_inj]
    constructor
    · intro h e he h1 h2 es ee hes hee hlt
      have hnone : db.events.find? (roomConflict rid s en) = none :=
        Option.isNone_iff_eq_none.mp h
      exact (List.find?_eq_none.mp hnone e he)
        ((roomConflict_iff rid s en e).mpr
          ⟨h1, h2, es, ee, hes, hee, hlt.1, hlt.2⟩)
    · intro h
      apply Option.isNone_iff_eq_none.mpr
      apply List.find?_eq_none.mpr
      intro e he hc
      rcases (roomConflict_iff rid s en e).mp hc with
        ⟨h1, h2, es, ee, hes, hee, l1, l2⟩
      exact h e he h1 h2 es ee hes hee ⟨l1, l2⟩
  · decide

/-- C1 (amended): checkVariationAvailability reports the variation
available exactly when it exists and is active; no overlap test against
existing CONFIRMED EventService bookings is performed (that query is
commented out in the source). -/
theorem variationAvailability_active_only (db : DB) (vid : Nat)
    (t : Millis) (dh : Rat) (h1 : vid ≠ 0) (h2 : dh ≠ 0) :
    (checkVariationAvailability db (some vid) (some t) (some dh)).isValid =
      (db.findVariation vid).any (fun v => v.is_active) := by
  unfold checkVariationAvailability
  have ht1 : truthyNat (some vid) = true := by
    simp [truthyNat, h1]
  have ht3 : truthyRat (some dh) = true := by
    simp [truthyRat, h2]
  simp only [ht1, ht3, truthyTime, Option.isSome_some, Bool.not_true,
    Bool.false_or, Bool.or_self, Bool.or_false, Bool.false_and,
    Bool.and_false, if_false, ite_false, Option.getD_some]
  cases hv : db.findVariation vid with
  | none => simp [failRes]
  | some v => cases hia : v.is_active <;> simp [hia, failRes, okRes]

/-- C1 witness: on the busy-variation database the checker's verdict is
exactly the existence/activity test. -/
theorem variationAvailability_active_only_witness :
    (checkVariationAvailability dbVariationBusy (some 1) (some 0)
        (some 2)).isValid =
      (dbVariationBusy.findVariation 1).any (fun v => v.is_active) :=
  variationAvailability_active_only dbVariationBusy 1 0 2
    (by decide) (by norm_num)

/-- C1 counterexample: variation 1 exists, is active, and carries a
CONFIRMED booking whose half-open window overlaps the requested window,
yet checkVariationAvailability reports it available. -/
theorem variationAvailability_ignores_conflicts :
    (checkVariationAvailability dbVariationBusy (some 1) (some 0)
        (some 2)).isValid = true ∧
    (dbVariationBusy.findVariation 1).any (fun v => v.is_active) = true ∧
    specVariationConflict dbVariationBusy 1 0 2 = true := by
  refine ⟨by decide, by decide, by decide⟩

/-- The find? of an event id commutes with the status-writing map. -/
theorem find?_map_setEventStatus (l : List Event) (id : Nat) (st : String) :
    (l.map (setEventStatus id st)).find? (fun e => e.event_id == id) =
      (l.find? (fun e => e.event_id == id)).map
        (fun e => { e with status := st }) := by
  induction l with
  | nil => rfl
  | cons x xs ih =>
    by_cases hx : x.event_id = id
    · simp [setEventStatus, hx, List.find?_cons]
    · simp [setEventStatus, hx, List.find?_cons, ih]

/-- Writing the status every matching row already carries is the
identity. -/
theorem map_setEventStatus_self (l : List Event) (id : Nat) (st : String)
    (h : ∀ x ∈ l, x.event_id = id → x.status = st) :
    l.map (setEventStatus id st) = l := by
  induction l with
  | nil => rfl
  | cons x xs ih =>
    simp only [List.map_cons]
    have hx : setEventStatus id st x = x := by
      unfold setEventStatus
      by_cases hid : x.event_id = id
      · rw [if_pos (by simp [hid]), ← h x (by simp) hid]
      · rw [if_neg (by simp [hid])]
    rw [hx, ih (fun y hy hid => h y (by simp [hy]) hid)]

/-- Two status writes to the same id collapse to the second. -/
theorem setEventStatus_twice (id : Nat) (st1 st2 : String) (x : Event) :
    setEventStatus id st2 (setEventStatus id st1 x) =
      setEventStatus id st2 x := by
  unfold setEventStatus
  by_cases hid : x.event_id = id <;> simp [hid]

/-- Unfolded shape of one toggle on a found event. -/
theorem toggleEventStatus_eq (db : DB) (id : Nat) (e : Event) (st : String)
    (hfind : db.findEvent id = some e) (hstat : e.status = st) :
    toggleEventStatus db id =
      (okRes { e with
               status := if st = "PENDING" then "CONFIRMED" else "PENDING" },
       { db with
         events := db.events.map (setEventStatus id
           (if st = "PENDING" then "CONFIRMED" else "PENDING")) }) := by
  unfold toggleEventStatus
  rw [hfind]
  dsimp only
  rw [hstat]
  by_cases h : st = "PENDING" <;> simp [h]

/-- C6 (amended): the toggle writes CONFIRMED when the status is PENDING
and PENDING for every other status, and applying it twice restores the
database exactly when the event's status was PENDING or CONFIRMED. -/
theorem toggleEventStatus_toggle_twice (db : DB) (id : Nat) (e : Event)
    (hfind : db.findEvent id = some e)
    (hsame : ∀ x ∈ db.events, x.event_id = id → x.status = e.status)
    (hst : e.status = "PENDING" ∨ e.status = "CONFIRMED") :
    (toggleEventStatus (toggleEventStatus db id).2 id).2 = db ∧
    (toggleEventStatus db id).1.data.map Event.status =
      some (if e.status = "PENDING" then "CONFIRMED" else "PENDING") := by
  have h1 := toggleEventStatus_eq db id e e.status hfind rfl
  set ns1 := if e.status = "PENDING" then "CONFIRMED" else "PENDING" with hns1
  have hfind1 : DB.findEvent
      { db with
        events := db.events.map (setEventStatus id ns1) } id =
      some { e with status := ns1 } := by
    unfold DB.findEvent at hfind ⊢
    rw [find?_map_setEventStatus, hfind]
    rfl
  have h2 := toggleEventStatus_eq _ id { e with status := ns1 } ns1 hfind1 rfl
  have hns2 : (if ns1 = "PENDING" then "CONFIRMED" else "PENDING") =
      e.status := by
    rcases hst with hp | hc
    · rw [hns1, hp]
      decide
    · rw [hns1, hc]
      decide
  constructor
  · rw [h1]
    dsimp only
    rw [h2]
    dsimp only
    rw [List.map_map]
    have hfun : (setEventStatus id
        (if ns1 = "PENDING" then "CONFIRMED" else "PENDING")) ∘
        (setEventStatus id ns1) = setEventStatus id
        (if ns1 = "PENDING" then "CONFIRMED" else "PENDING") := by
      funext x
      exact setEventStatus_twice id ns1 _ x
    rw [hfun, hns2, map_setEventStatus_self db.events id e.status hsame]
  · rw [h1]
    simp [okRes]

/-- C6 witness: double toggle on a PENDING event restores the database and
the first toggle reports CONFIRMED. -/
theorem toggleEventStatus_toggle_twice_witness :
    (toggleEventStatus (toggleEventStatus dbPending 1).2 1).2 = dbPending ∧
    (toggleEventStatus dbPending 1).1.data.map Event.status =
      some (if eventPendingEx.status = "PENDING" then "CONFIRMED"
        else "PENDING") :=
  toggleEventStatus_toggle_twice dbPending 1 eventPendingEx (by decide)
    (by decide) (Or.inl (by decide))

/-- C6 counterexample: toggling a COMPLETED event twice yields CONFIRMED,
not the original status, so the double toggle is not the identity. -/
theorem toggleEventStatus_not_involutive :
    dbCompleted.events.map Event.status = ["COMPLETED"] ∧
    (toggleEventStatus (toggleEventStatus dbCompleted 1).2 1).2.events.map
      Event.status = ["CONFIRMED"] ∧
    (toggleEventStatus (toggleEventStatus dbCompleted 1).2 1).2 ≠
      dbCompleted := by
  refine ⟨by decide, by decide, by decide⟩

/-- C10: deleting an event that has dependent EventServices, an Invoice,
Payments or Reviews without the force flag is rejected, the rejection data
reports the exact count of each dependent type, and the database is left
untouched. -/
theorem deleteEvent_requires_force (db : DB) (id : Nat) (e : Event)
    (hfind : db.findEvent id = some e)
    (hdeps :
      (db.eventServices.filter (fun es => es.event_id == id)).length > 0 ∨
      (db.findInvoiceByEvent id).isSome = true ∨
      (db.payments.filter (fun p => p.event_id == id)).length > 0 ∨
      (db.reviews.filter (fun r => r.event_id == id)).length > 0) :
    (deleteEvent db id false).1.isValid = false ∧
    (deleteEvent db id false).2 = db ∧
    (deleteEvent db id false).1.data = some (DeleteData.deps
      (db.eventServices.filter (fun es => es.event_id == id)).length
      (db.payments.filter (fun p => p.event_id == id)).length
      (db.reviews.filter (fun r => r.event_id == id)).length
      (db.findInvoiceByEvent id).isSome) := by
  unfold deleteEvent
  rw [hfind]
  dsimp only
  split
  · exact ⟨rfl, rfl, rfl⟩
  · next hcond =>
      exfalso
      rcases hdeps with hd | hd | hd | hd <;> simp_all

/-- C10 witness: the two-EventService, one-Invoice example is rejected with
counts 2 services, 0 payments, 0 reviews and an invoice, writing
nothing. -/
theorem deleteEvent_requires_force_witness :
    ((deleteEvent dbWithDeps 1 false).1.isValid = false ∧
      (deleteEvent dbWithDeps 1 false).2 = dbWithDeps ∧
      (deleteEvent dbWithDeps 1 false).1.data = some (DeleteData.deps
        (dbWithDeps.eventServices.filter
          (fun es => es.event_id == 1)).length
        (dbWithDeps.payments.filter (fun p => p.event_id == 1)).length
        (dbWithDeps.reviews.filter (fun r => r.event_id == 1)).length
        (dbWithDeps.findInvoiceByEvent 1).isSome)) ∧
    (deleteEvent dbWithDeps 1 false).1.data =
      some (DeleteData.deps 2 0 0 true) :=
  ⟨deleteEvent_requires_force dbWithDeps 1 eventListed (by decide)
    (Or.inl (by decide)), by decide⟩

/-- Page p is below the ceiling of t over L exactly when p·L is below t. -/
theorem lt_ceilDivNat_iff (P L t : Nat) (hL : 1 ≤ L) :
    P < ceilDivNat t L ↔ P * L < t := by
  unfold ceilDivNat
  rw [Nat.lt_iff_add_one_le, Nat.le_div_iff_mul_le (by omega : 0 < L)]
  have h1 : (P + 1) * L = P * L + L := by ring
  rw [h1]
  generalize P * L = X
  omega

/-- C9: with a valid page and limit the listing returns at most limit rows
and reports hasNextPage exactly when page·limit is below the total
count. -/
theorem getAllEvents_pagination (db : DB) (f : EventFilters) (p l : Int)
    (hp : f.page = some p) (hl : f.limit = some l)
    (hv : (validatePagination p l).errors = []) :
    ∀ pd, (getAllEvents db f).data = some pd →
      pd.events.length ≤ l.toNat ∧
      (pd.pagination.hasNextPage = true ↔
        p * l < (pd.pagination.totalCount : Int)) := by
  have hbounds : 1 ≤ p ∧ 1 ≤ l ∧ l ≤ 100 := by
    unfold validatePagination validateNumberInt at hv
    dsimp only at hv
    by_cases h1 : p < 1 <;> by_cases h2 : l < 1 <;> by_cases h3 : l > 100 <;>
      simp [h1, h2, h3] at hv ⊢
    all_goals omega
  obtain ⟨hp1, hl1, _⟩ := hbounds
  have hpv : validatePagination p l =
      { page := p, limit := l, errors := [] } := by
    unfold validatePagination validateNumberInt
    dsimp only
    rw [if_neg (by omega : ¬ p < 1), if_neg (by omega : ¬ l < 1),
      if_neg (by omega : ¬ l > 100)]
    dsimp only [List.append_nil, List.nil_append]
    rw [if_neg (by omega : ¬ p = 0), if_neg (by omega : ¬ l = 0)]
  intro pd hpd
  unfold getAllEvents at hpd
  rw [hp, hl] at hpd
  dsimp only [Option.getD_some] at hpd
  rw [hpv] at hpd
  rw [if_neg (by simp)] at hpd
  dsimp only [okRes] at hpd
  rw [Option.some_inj] at hpd
  subst hpd
  constructor
  · exact List.length_take_le _ _
  · dsimp only
    rw [decide_eq_true_eq]
    obtain ⟨P, rfl⟩ : ∃ P : Nat, p = (P : Int) :=
      ⟨p.toNat, (Int.toNat_of_nonneg (by omega)).symm⟩
    obtain ⟨L, rfl⟩ : ∃ L : Nat, l = (L : Int) :=
      ⟨l.toNat, (Int.toNat_of_nonneg (by omega)).symm⟩
    have hL : 1 ≤ L := by exact_mod_cast hl1
    rw [show ((L : Int)).toNat = L from Int.toNat_natCast L]
    rw [Nat.cast_lt]
    have hmul : ((P : Int) * (L : Int)) = ((P * L : Nat) : Int) := by
      push_cast
      ring
    rw [hmul, Nat.cast_lt]
    exact lt_ceilDivNat_iff P L _ hL

/-- C9 witness: on the one-event database with page 1 and limit 20 the
page holds one row (at most 20) and hasNextPage is false, matching
1·20 not below 1. -/
theorem getAllEvents_pagination_witness :
    pdListing.events.length ≤ (20 : Int).toNat ∧
    (pdListing.pagination.hasNextPage = true ↔
      (1 : Int) * 20 < (pdListing.pagination.totalCount : Int)) :=
  getAllEvents_pagination dbListing fPage1 1 20 rfl rfl (by decide)
    pdListing (by decide)

/-- Every failure path of the checked tail of innerCreateEvent happens
before any write, so the database comes back untouched. -/
theorem innerCreateEventChecked_invalid (db : DB) (now : Millis)
    (d : EventData) (rid : Nat) (st : Option Millis) (dh : Option Rat) :
    (innerCreateEventChecked db now d rid st dh).1.isValid = false →
    (innerCreateEventChecked db now d rid st dh).2 = db := by
  unfold innerCreateEventChecked
  dsimp only
  repeat' split
  all_goals intro h
  all_goals first
    | rfl
    | simp [okRes] at h

/-- Every failure path of innerCreateEvent leaves the database
untouched. -/
theorem innerCreateEvent_invalid (db : DB) (now : Millis) (d : EventData) :
    (innerCreateEvent db now d).1.isValid = false →
    (innerCreateEvent db now d).2 = db := by
  unfold innerCreateEvent
  dsimp only
  repeat' split
  all_goals first
    | exact fun _ => rfl
    | exact innerCreateEventChecked_invalid _ _ _ _ _ _

/-- C2 (amended): a failure inside createEvent commits nothing, and a
failure inside the controller's separate event-services transaction rolls
back only that transaction; the state is then exactly the one createEvent
already committed, with the Event, its Invoice and the ROOM InvoiceDetail
persisted. -/
theorem createEventController_partial_commit (db : DB) (now : Millis)
    (d : EventData) (variants : List (Nat × Nat)) :
    (∀ errs, (createEventController db now d variants).1 =
        ControllerResult.badRequest errs →
      (createEventController db now d variants).2 = db) ∧
    ((createEventController db now d variants).1 =
        ControllerResult.serverError →
      (createEventController db now d variants).2 =
        (createEvent db now d).2) := by
  unfold createEventController
  rcases hce : createEvent db now d with ⟨result, db1⟩
  have hdb1 : (createEvent db now d).2 = db1 := by rw [hce]
  dsimp only
  by_cases hres : result.isValid
  · simp only [hres, Bool.not_true, Bool.false_eq_true, if_false]
    cases hdata : result.data with
    | none =>
        exact ⟨fun errs h => by simp at h, fun _ => hdb1.symm ▸ rfl⟩
    | some ce =>
        by_cases hv : variants.isEmpty
        · simp only [hv, if_true]
          exact ⟨fun errs h => by simp at h, fun h => by simp at h⟩
        · simp only [hv, Bool.false_eq_true, if_false]
          rcases hpv : processServiceVariants db1 ce 0 variants with msg | pair
          · exact ⟨fun errs h => by simp at h, fun _ => by dsimp only⟩
          · rcases pair with ⟨db2, count⟩
            dsimp only
            exact ⟨fun errs h => by simp at h, fun h => by simp at h⟩
  · rw [Bool.not_eq_true] at hres
    simp only [hres, Bool.not_false, if_true]
    refine ⟨fun errs _ => ?_, fun h => by simp at h⟩
    have := innerCreateEvent_invalid db now d
    unfold createEvent at hce
    rw [hce] at this
    exact this hres

/-- C2 counterexample: after validation succeeded, the event-services
transaction throws (inactive service), the controller answers HTTP 500,
and yet the Event row, the Invoice and the ROOM InvoiceDetail from the
attempt are still in the database. -/
theorem createEventController_leaves_event :
    (createEventController dbInactiveService 0 dParty [(1, 1)]).1 =
      ControllerResult.serverError ∧
    (createEventController dbInactiveService 0 dParty [(1, 1)]).2.events.map
      Event.event_name = ["Party"] ∧
    (createEventController dbInactiveService 0 dParty
      [(1, 1)]).2.invoices.length = 1 ∧
    (createEventController dbInactiveService 0 dParty
      [(1, 1)]).2.invoiceDetails.length = 1 := by
  refine ⟨by decide, by decide, by decide, by decide⟩

/-- C2 witness: on the inactive-service example the controller's final
state is the state createEvent committed. -/
theorem createEventController_partial_commit_witness :
    (createEventController dbInactiveService 0 dParty [(1, 1)]).2 =
      (createEvent dbInactiveService 0 dParty).2 :=
  (createEventController_partial_commit dbInactiveService 0 dParty
    [(1, 1)]).2 (by decide)

/-- Both update-path call sites hand checkRoomAvailability a null end
time, so the checker reports invalid with null data and the reason read
throws. -/
theorem updateAvailCheck_throws (db : DB) (rid : Nat)
    (start : Option Millis) (dh : Option Rat) :
    updateAvailCheck db rid start dh =
      Except.error "TypeError: cannot read reason of null" := by
  unfold updateAvailCheck checkRoomAvailability
  cases start <;> rfl

/-- Every early return of the room phase carries an invalid result. -/
theorem updateRoomPhase_early_invalid (db : DB) (d : EventData)
    (ex : Event) (dhO : Option Rat) (c0 : Rat) :
    ∀ res, updateRoomPhase db d ex dhO c0 =
      Except.ok (RoomPhase.early res) → res.isValid = false := by
  intro res
  unfold updateRoomPhase
  repeat' split
  all_goals intro h
  all_goals first
    | rw [← h]
    | (simp only [failRes, Except.ok.injEq, RoomPhase.early.injEq] at h
       rw [← h])
    | simp_all [failRes]

/-- With a supplied start time, a nonzero duration and a room on the
event, the room phase never reaches its continue outcome: each branch
either rejects the room or throws inside the availability check. -/
theorem updateRoomPhase_no_cont (db : DB) (d : EventData) (ex : Event)
    (dh : Rat) (c0 : Rat) (hst : d.start_time.isSome = true)
    (hdh : ¬ dh = 0) (hroom : truthyNat ex.room_id = true) :
    ∀ c, updateRoomPhase db d ex (some dh) c0 ≠
      Except.ok (RoomPhase.cont c) := by
  intro c
  unfold updateRoomPhase
  simp only [updateAvailCheck_throws]
  repeat' split
  all_goals simp_all [truthyTime, truthyRat]

/-- Under the same hypotheses the whole update transaction either throws
or returns an invalid result over the untouched database. -/
theorem updateEventTx_fails (db : DB) (eventId : Nat) (d : EventData)
    (ex : Event) (st : Option Millis) (dh : Rat)
    (hst : d.start_time.isSome = true) (hdh : ¬ dh = 0)
    (hroom : truthyNat ex.room_id = true) :
    ∀ res db2, updateEventTx db eventId d ex st (some dh) =
      Except.ok (res, db2) → res.isValid = false ∧ db2 = db := by
  intro res db2
  unfold updateEventTx
  split
  · intro h
    simp only [Except.ok.injEq, Prod.mk.injEq] at h
    refine ⟨?_, h.2.symm⟩
    rw [← h.1]
    rfl
  · intro h
    dsimp only at h
    rcases hrp : updateRoomPhase db d ex (some dh)
        (jsOrRat d.estimated_cost ex.estimated_cost) with msg | phase
    · rw [hrp] at h
      simp at h
    · cases phase with
      | early res0 =>
          rw [hrp] at h
          dsimp only at h
          simp only [Except.ok.injEq, Prod.mk.injEq] at h
          have h0 := updateRoomPhase_early_invalid db d ex (some dh)
            (jsOrRat d.estimated_cost ex.estimated_cost) res0 hrp
          exact ⟨h.1 ▸ h0, h.2.symm⟩
      | cont ccost =>
          exact absurd hrp
            (updateRoomPhase_no_cont db d ex dh _ hst hdh hroom ccost)

/-- C8: for an existing event that references a room, an update supplying
a new start time and an end time strictly after it always comes back as a
failure result with the database unchanged: the room-availability check is
called without an end time, the checker rejects that, and reading the
reason off its null data throws inside the transaction (or an earlier
validation step already failed). -/
theorem updateEvent_newTimes_fails (db : DB) (now : Millis) (id : Nat)
    (d : EventData) (user : Option User) (ex : Event) (rid : Nat)
    (s e : Millis) (hfind : db.findEvent id = some ex)
    (hroom : ex.room_id = some rid) (hrid : rid ≠ 0)
    (hs : d.start_time = some s) (he : d.end_time = some e)
    (hlt : s < e) :
    (updateEvent db now id d user).1.isValid = false ∧
    (updateEvent db now id d user).2 = db := by
  have hes : (0 : Int) < e - s := Int.sub_pos.mpr hlt
  have hpos : (0 : Rat) < ((e - s : Int) : Rat) / 3600000 := by
    apply div_pos
    · exact_mod_cast hes
    · norm_num
  have hdur : computeUpdateDuration d ex =
      Except.ok (some (((e - s : Int) : Rat) / 3600000)) := by
    unfold computeUpdateDuration
    rw [hs, he]
    dsimp only
    rw [if_neg (by exact not_le.mpr hpos)]
  unfold updateEvent
  rw [hfind]
  dsimp only
  split
  · exact ⟨rfl, rfl⟩
  · split
    · exact ⟨rfl, rfl⟩
    · rw [hdur]
      dsimp only
      rcases htx : updateEventTx db id d ex
          (if d.start_time.isSome = true then d.start_time
            else ex.start_time)
          (some (((e - s : Int) : Rat) / 3600000)) with msg | resdb
      · exact ⟨rfl, rfl⟩
      · rcases resdb with ⟨res, db2⟩
        dsimp only
        exact updateEventTx_fails db id d ex _ _
          (by rw [hs]; rfl) (by exact ne_of_gt hpos)
          (by rw [hroom]; simp [truthyNat, hrid]) res db2 htx

/-- C8 witness: updating the existing two-hour event with a fresh 0-1h
window fails and writes nothing. -/
theorem updateEvent_newTimes_fails_witness :
    (updateEvent dbExisting 0 1 dNewTimes none).1.isValid = false ∧
    (updateEvent dbExisting 0 1 dNewTimes none).2 = dbExisting :=
  updateEvent_newTimes_fails dbExisting 0 1 dNewTimes none eventExisting 1
    0 3600000 (by decide) (by decide) (by decide) (by decide) (by decide)
    (by decide)

/-- C3: no exclusion by the event's own id exists.  checkRoomAvailability
has no exclusion parameter, so when it is called with both endpoints the
event's own CONFIRMED window conflicts with itself; and the update path
passes a null end time, so re-submitting the unchanged 10:00-12:00 window
makes updateEvent fail on the thrown reason-of-null TypeError instead of
succeeding. -/
theorem updateEvent_no_self_exclusion :
    ((checkRoomAvailability dbRoomBooked 1 (some 36000000) (some 43200000)
        (some 2)).data.map RoomAvailData.isAvailable = some false) ∧
    (updateEvent dbRoomBooked 0 5 dSameWindow none).1.isValid = false ∧
    (updateEvent dbRoomBooked 0 5 dSameWindow none).1.errors =
      ["TypeError: cannot read reason of null"] ∧
    (updateEvent dbRoomBooked 0 5 dSameWindow none).2 = dbRoomBooked := by
  refine ⟨by decide, by decide, by decide, by decide⟩

/-- C4: after the successful scenario-1 create, the event's stored
estimated cost is 1,900,000 but the invoice total_amount stays at the
room-only 1,400,000 even though the invoice's own detail rows sum to
1,900,000: the controller never writes the service share back into
total_amount. -/
theorem create_invoice_total_diverges :
    (createEventController dbScenario1 0 dGala [(1, 1)]).1.isCreated =
      true ∧
    (createEventController dbScenario1 0 dGala [(1, 1)]).2.events.map
      Event.estimated_cost = [1900000] ∧
    (createEventController dbScenario1 0 dGala [(1, 1)]).2.invoices.map
      Invoice.total_amount = [1400000] ∧
    (createEventController dbScenario1 0 dGala
      [(1, 1)]).2.invoiceDetails.map (fun dt => dt.subtotal.getD 0) =
      [1000000, 500000] ∧
    (1400000 : Rat) ≠ 1900000 := by
  refine ⟨by decide, by decide, by decide, by decide, by decide⟩

/-- C5: the create path realises the documented cost formula (the
scenario-1 booking costs 1,900,000), but the update path adds 0 for the
same 500,000 variation: the prisma select of that lookup omits base_price,
so the code adds undefined-or-0 and the cost stays 1,400,000 instead of
1,900,000. -/
theorem estimated_cost_formula_divergence :
    (createEventController dbScenario1 0 dGala [(1, 1)]).2.events.map
      Event.estimated_cost = [1900000] ∧
    (updateEvent dbExisting 0 1 dAddService none).1.isValid = true ∧
    (updateEvent dbExisting 0 1 dAddService none).2.events.map
      Event.estimated_cost = [1400000] ∧
    (updateEvent dbExisting 0 1 dAddService none).2.eventServices.map
      EventService.variation_id = [some 1] ∧
    dbExisting.variations.map Variation.base_price = [some 500000] := by
  refine ⟨by decide, by decide, by decide, by decide, by decide⟩

end EventPlanner
